import Mathlib

/-!
Verification of the CHIP-8 interpreter core in `src/chip8/chip8.go`.

Shallow embedding conventions:
* Go `byte` and `uint16` values are `Nat` with an explicit `% 256` or
  `% 65536` wrap at every operation where the Go code can overflow or
  where Go's fixed-width typing truncates a value.  In particular the
  source line `opcode := c.memory[c.pc]<<8 | c.memory[c.pc+1]` shifts a
  `byte` left by 8 *at type byte*, which is `(b <<< 8) % 256`, and
  `c.stack[c.sp] = byte(c.pc)` stores `c.pc % 256`.
* The byte arrays `memory`, `gfx`, `stack`, `key` and the register file
  `V` are functions `Nat → Nat`; `updF` is pointwise update.  Array
  cells hold byte values `0 ≤ v ≤ 255` in every state reachable from
  `initMachine`; truncated `Nat` subtraction such as `0xFF - v` agrees
  with Go's byte arithmetic on that range.
* A Go `log.Panicf` call and a Go runtime index-out-of-range panic are
  both modelled as a `StepResult.fault` outcome carrying the machine
  state as it is at the moment of the panic (the state a caller that
  recovers from the panic would observe).  A normal return is
  `StepResult.ok`.
* `rand.Intn(255)` in the `0xCxkk` case is modelled by an explicit
  parameter `rnd` threaded into `decode`; the case computes
  `byte(rnd % 0xFF & kk)` exactly as the source does.
-/

/-- Machine state of the interpreter, mirroring `type Chip8 struct`. -/
structure Chip8 where
  V : Nat → Nat
  ir : Nat
  pc : Nat
  sp : Nat
  opcode : Nat
  memory : Nat → Nat
  gfx : Nat → Nat
  delayedTimer : Nat
  soundTimer : Nat
  stack : Nat → Nat
  key : Nat → Nat
  drawFlag : Bool

/-- Pointwise update of a byte-array-as-function, `f[i] = v`. -/
def updF (f : Nat → Nat) (i v : Nat) : Nat → Nat :=
  fun j => if j = i then v else f j

/-- Kind of Go panic raised by the interpreter. -/
inductive FaultKind where
  | unknownOpcode
  | indexOutOfRange

/-- Outcome of a fetch / decode step: a normal return, or a Go panic
carrying the machine state at the moment of the panic. -/
inductive StepResult where
  | ok (s : Chip8)
  | fault (k : FaultKind) (s : Chip8)

/-- Apply a total state transformation to a non-panicking outcome. -/
def StepResult.mapOk (f : Chip8 → Chip8) : StepResult → StepResult
  | .ok s => .ok (f s)
  | r => r

/-- The state of a normal (non-panicking) outcome. -/
def StepResult.okState : StepResult → Option Chip8
  | .ok s => some s
  | .fault _ _ => none

/-- The machine state at the moment of a panic, if the step panicked. -/
def StepResult.faultState : StepResult → Option Chip8
  | .ok _ => none
  | .fault _ s => some s

/-- Whether the step panicked. -/
def StepResult.isFault : StepResult → Bool
  | .ok _ => false
  | .fault _ _ => true

/-- `func (c *Chip8) incrementProgramCounter() { c.pc += 2 }` (uint16). -/
def incrementProgramCounter (s : Chip8) : Chip8 :=
  { s with pc := (s.pc + 2) % 65536 }

/-- `func (c *Chip8) execute() { c.pc += 2 }` — the third phase of
`EmulateCycle`, which unconditionally advances the program counter. -/
def execute (s : Chip8) : Chip8 :=
  { s with pc := (s.pc + 2) % 65536 }

/-- `vXPos := c.opcode&0xF00>>8` (Go `&` and `>>` associate left). -/
def vx (w : Nat) : Nat := (w &&& 0xF00) >>> 8

/-- `vYPos := c.opcode&0x0F0>>4`. -/
def vy (w : Nat) : Nat := (w &&& 0x0F0) >>> 4

/-- Register-file effect of `case 0x0004` (ADD Vx, Vy): the source
zeroes `V[0xF]`, then sets it to 1 when `c.V[vXPos] > 0xFF - c.V[vYPos]`,
then runs `c.V[vXPos] += c.V[(vYPos) >> 4]` — note the source shifts the
already-extracted nibble `vYPos` right by 4 again, so the addend is
`V[0]`, and the reads happen after the flag writes. -/
def add8V (w : Nat) (V : Nat → Nat) : Nat → Nat :=
  let V1 := updF V 0xF 0
  let V2 := if V1 (vx w) > 0xFF - V1 (vy w) then updF V1 0xF 1 else V1
  updF V2 (vx w) ((V2 (vx w) + V2 ((vy w) >>> 4)) % 256)

/-- Register-file effect of `case 0x0005` (SUB Vx, Vy): the source
zeroes `V[0xF]`, sets it when `c.V[vXPos] > 0xFF - c.V[vYPos]` (the same
carry test as ADD), then runs `c.V[vXPos] -= c.V[vYPos]` (byte wrap). -/
def sub8V (w : Nat) (V : Nat → Nat) : Nat → Nat :=
  let V1 := updF V 0xF 0
  let V2 := if V1 (vx w) > 0xFF - V1 (vy w) then updF V1 0xF 1 else V1
  updF V2 (vx w) ((V2 (vx w) + 256 - V2 (vy w)) % 256)

/-- Register-file effect of `case 0x0006` (SHR Vx). -/
def shr8V (w : Nat) (V : Nat → Nat) : Nat → Nat :=
  let V1 := updF V 0xF 0
  let V2 := if V1 (vx w) &&& 0x1 = 1 then updF V1 0xF 1 else V1
  updF V2 (vx w) (V2 (vx w) >>> 1)

/-- Register-file effect of `case 0x0007` (SUBN Vx, Vy). -/
def subn8V (w : Nat) (V : Nat → Nat) : Nat → Nat :=
  let V1 := updF V 0xF 0
  let V2 := if V1 (vy w) > V1 (vx w) then updF V1 0xF 1 else V1
  updF V2 (vx w) ((V2 (vy w) + 256 - V2 (vx w)) % 256)

/-- Register-file effect of `case 0x000E` (SHL Vx); the source tests the
top bit of `V[vYPos]` but shifts `V[vXPos]`. -/
def shl8V (w : Nat) (V : Nat → Nat) : Nat → Nat :=
  let V1 := updF V 0xF 0
  let V2 := if (V1 (vy w)) >>> 7 = 1 then updF V1 0xF 1 else V1
  updF V2 (vx w) ((V2 (vx w) <<< 1) % 256)

/-- The inner `switch c.opcode & 0x000F` of the `case 0x8000` family. -/
def decode8 (s : Chip8) : StepResult :=
  if s.opcode &&& 0x000F = 0x0000 then
    StepResult.ok (incrementProgramCounter
      { s with V := updF s.V (vx s.opcode) (s.V (vy s.opcode)) })
  else if s.opcode &&& 0x000F = 0x0001 then
    StepResult.ok (incrementProgramCounter
      { s with V := updF s.V (vx s.opcode) (s.V (vx s.opcode) ||| s.V (vy s.opcode)) })
  else if s.opcode &&& 0x000F = 0x0002 then
    StepResult.ok (incrementProgramCounter
      { s with V := updF s.V (vx s.opcode) (s.V (vx s.opcode) &&& s.V (vy s.opcode)) })
  else if s.opcode &&& 0x000F = 0x0003 then
    StepResult.ok (incrementProgramCounter
      { s with V := updF s.V (vx s.opcode) (s.V (vx s.opcode) ^^^ s.V (vy s.opcode)) })
  else if s.opcode &&& 0x000F = 0x0004 then
    StepResult.ok (incrementProgramCounter { s with V := add8V s.opcode s.V })
  else if s.opcode &&& 0x000F = 0x0005 then
    StepResult.ok (incrementProgramCounter { s with V := sub8V s.opcode s.V })
  else if s.opcode &&& 0x000F = 0x0006 then
    StepResult.ok (incrementProgramCounter { s with V := shr8V s.opcode s.V })
  else if s.opcode &&& 0x000F = 0x0007 then
    StepResult.ok (incrementProgramCounter { s with V := subn8V s.opcode s.V })
  else if s.opcode &&& 0x000F = 0x000E then
    StepResult.ok (incrementProgramCounter { s with V := shl8V s.opcode s.V })
  else
    StepResult.fault FaultKind.unknownOpcode s

/-- The `switch c.opcode & 0xF000` statement of `decode`, one branch per
source `case`.  The `0xD000`, `0xE000` and `0xF000` cases are `TODO`
stubs in the source: they perform no state change at all.  Go `switch`
arms without a `default` fall through silently, so an unmatched low byte
inside `0xE000`/`0xF000` also performs no state change.  The trailing
branch models the outer `default: log.Panicf(...)` (unreachable, since
masking with `0xF000` always yields one of the sixteen listed values). -/
def decodeOp (rnd : Nat) (s : Chip8) : StepResult :=
  if s.opcode &&& 0xF000 = 0x0000 then
    (if s.opcode &&& 0x000F = 0x0000 then
      StepResult.ok (incrementProgramCounter { s with gfx := fun _ => 0 })
    else if s.opcode &&& 0x000F = 0x000E then
      (if (s.sp + 65535) % 65536 < 16 then
        StepResult.ok (incrementProgramCounter
          { s with sp := (s.sp + 65535) % 65536,
                   pc := s.stack ((s.sp + 65535) % 65536) })
      else
        StepResult.fault FaultKind.indexOutOfRange
          { s with sp := (s.sp + 65535) % 65536 })
    else StepResult.fault FaultKind.unknownOpcode s)
  else if s.opcode &&& 0xF000 = 0x1000 then
    StepResult.ok { s with pc := s.opcode &&& 0x0FFF }
  else if s.opcode &&& 0xF000 = 0x2000 then
    (if s.sp < 16 then
      StepResult.ok { s with stack := updF s.stack s.sp (s.pc % 256),
                             sp := (s.sp + 1) % 65536,
                             pc := s.opcode &&& 0x0FFF }
    else StepResult.fault FaultKind.indexOutOfRange s)
  else if s.opcode &&& 0xF000 = 0x3000 then
    StepResult.ok (incrementProgramCounter
      (if s.V (vx s.opcode) = s.opcode &&& 0x00FF then incrementProgramCounter s else s))
  else if s.opcode &&& 0xF000 = 0x4000 then
    StepResult.ok (incrementProgramCounter
      (if s.V (vx s.opcode) ≠ s.opcode &&& 0x00FF then incrementProgramCounter s else s))
  else if s.opcode &&& 0xF000 = 0x5000 then
    StepResult.ok (incrementProgramCounter
      (if s.V (vx s.opcode) = s.V (vy s.opcode) then incrementProgramCounter s else s))
  else if s.opcode &&& 0xF000 = 0x6000 then
    StepResult.ok (incrementProgramCounter
      { s with V := updF s.V (vx s.opcode) (s.opcode &&& 0x00FF) })
  else if s.opcode &&& 0xF000 = 0x7000 then
    StepResult.ok (incrementProgramCounter
      { s with V := updF s.V (vx s.opcode)
                      ((s.V (vx s.opcode) + (s.opcode &&& 0x00FF)) % 256) })
  else if s.opcode &&& 0xF000 = 0x8000 then
    decode8 s
  else if s.opcode &&& 0xF000 = 0x9000 then
    StepResult.ok (incrementProgramCounter
      (if s.V (vx s.opcode) ≠ s.V (vy s.opcode) then incrementProgramCounter s else s))
  else if s.opcode &&& 0xF000 = 0xA000 then
    StepResult.ok (incrementProgramCounter { s with ir := s.opcode &&& 0x0FFF })
  else if s.opcode &&& 0xF000 = 0xB000 then
    StepResult.ok { s with pc := ((s.opcode &&& 0x0FFF) + s.V 0) % 65536 }
  else if s.opcode &&& 0xF000 = 0xC000 then
    StepResult.ok (incrementProgramCounter
      { s with V := updF s.V (vx s.opcode)
                      (((rnd % 0xFF) &&& (s.opcode &&& 0x00FF)) % 256) })
  else if s.opcode &&& 0xF000 = 0xD000 then
    StepResult.ok s
  else if s.opcode &&& 0xF000 = 0xE000 then
    StepResult.ok s
  else if s.opcode &&& 0xF000 = 0xF000 then
    StepResult.ok s
  else
    StepResult.fault FaultKind.unknownOpcode s

/-- The timer update at the end of `decode`: the delay timer is
decremented whenever it is positive, but the sound timer is decremented
only when it equals 1 (the decrement sits inside the `== 1` test). -/
def tickTimers (s : Chip8) : Chip8 :=
  { s with
    delayedTimer := if s.delayedTimer > 0 then s.delayedTimer - 1 else s.delayedTimer,
    soundTimer := if s.soundTimer > 0 then
        (if s.soundTimer = 1 then s.soundTimer - 1 else s.soundTimer)
      else s.soundTimer }

/-- `func (c *Chip8) decode()`: the opcode switch followed by the timer
updates (which run only when the switch did not panic). -/
def decode (rnd : Nat) (s : Chip8) : StepResult :=
  StepResult.mapOk tickTimers (decodeOp rnd s)

/-- `func (c *Chip8) fetch()`: reads `memory[pc]` and `memory[pc+1]`
(panicking if either index is outside the 4096-byte array; `pc+1` wraps
at uint16) and stores `c.memory[c.pc]<<8 | c.memory[c.pc+1]` into
`c.opcode`.  The left operand has Go type `byte`, so the shift by 8
truncates to 0 at type byte before the bitwise or. -/
def fetch (s : Chip8) : StepResult :=
  if s.pc < 4096 then
    (if (s.pc + 1) % 65536 < 4096 then
      StepResult.ok
        { s with opcode := ((s.memory s.pc <<< 8) % 256) ||| s.memory ((s.pc + 1) % 65536) }
    else StepResult.fault FaultKind.indexOutOfRange s)
  else StepResult.fault FaultKind.indexOutOfRange s

/-- `func (c *Chip8) EmulateCycle()`: fetch, then decode, then execute
(the unconditional extra `pc += 2`). -/
def EmulateCycle (rnd : Nat) (s : Chip8) : StepResult :=
  StepResult.mapOk execute (StepResult.mapOk tickTimers
    (match fetch s with
     | .ok t => decodeOp rnd t
     | r => r))

/-- Execute a single given opcode word `w` from state `s`: the opcode
register is set to `w` (as `fetch` would do) and then `decode` and
`execute` run.  This bypasses the (independently broken) fetch so each
instruction's own semantics can be examined. -/
def stepOp (rnd w : Nat) (s : Chip8) : StepResult :=
  StepResult.mapOk execute (decode rnd { s with opcode := w })

/-- `func getChip8Fontset() [FONTSET_SIZE]byte`. -/
def getChip8Fontset : List Nat :=
  [0xF0, 0x90, 0x90, 0x90, 0xF0,
   0x20, 0x60, 0x20, 0x20, 0x70,
   0xF0, 0x10, 0xF0, 0x80, 0xF0,
   0xF0, 0x10, 0xF0, 0x10, 0xF0,
   0x90, 0x90, 0xF0, 0x10, 0x10,
   0xF0, 0x80, 0xF0, 0x10, 0xF0,
   0xF0, 0x80, 0xF0, 0x90, 0xF0,
   0xF0, 0x10, 0x20, 0x40, 0x40,
   0xF0, 0x90, 0xF0, 0x90, 0xF0,
   0xF0, 0x90, 0xF0, 0x10, 0xF0,
   0xF0, 0x90, 0xF0, 0x90, 0x90,
   0xE0, 0x90, 0xE0, 0x90, 0xE0,
   0xF0, 0x80, 0x80, 0x80, 0xF0,
   0xE0, 0x90, 0x90, 0x90, 0xE0,
   0xF0, 0x80, 0xF0, 0x80, 0xF0,
   0xF0, 0x80, 0xF0, 0x80, 0x80]

/-- The machine state produced by the source's reset routine
(`func (c *Chip8) initialize()`): PC = 0x200, everything cleared,
fontset loaded at address 0, both timers 0, draw flag set. -/
def initMachine : Chip8 :=
  { V := fun _ => 0
    ir := 0
    pc := 0x200
    sp := 0
    opcode := 0
    memory := fun i => getChip8Fontset.getD i 0
    gfx := fun _ => 0
    delayedTimer := 0
    soundTimer := 0
    stack := fun _ => 0
    key := fun _ => 0
    drawFlag := true }

/-- One `CALL 0xA00` instruction executed as a step, when it succeeds. -/
def callStep (s : Chip8) : Option Chip8 :=
  (stepOp 0 0x2A00 s).okState

/-- `n` nested `CALL 0xA00` instructions starting from the freshly
initialized machine, when every one of them succeeds. -/
def nestedCalls : Nat → Option Chip8
  | 0 => some initMachine
  | n + 1 => (nestedCalls n).bind callStep

/-- Fetch scenario for claim C1: PC = 0x200 and the two instruction
bytes there are 0x12 and 0x34. -/
def cs1 : Chip8 :=
  { initMachine with
    memory := fun a => if a = 0x200 then 0x12 else if a = 0x201 then 0x34 else 0 }

/-- Claim C1: the fetch step is claimed to combine `memory[PC]` and
`memory[PC+1]` big-endian into `memory[PC]*256 + memory[PC+1]`.
Refuted: `c.memory[c.pc]<<8` is evaluated at Go type `byte`, so the
high byte is shifted out entirely and the fetched opcode is just
`memory[PC+1]`: with bytes 0x12, 0x34 at PC the code fetches 0x0034,
not 0x1234. -/
theorem C1_fetch_truncates_high_byte :
    (fetch cs1).okState.map Chip8.opcode = some 0x34 ∧
    cs1.memory cs1.pc * 256 + cs1.memory (cs1.pc + 1) = 0x1234 ∧
    (0x34 : Nat) ≠ 0x1234 :=
  ⟨rfl, rfl, by decide⟩

/-- Claim C2: each instruction is claimed to advance PC either by an
explicit set or by a single default +2, never both and never twice,
with the test 0x6xkk; 0x7xkk2 advancing PC by 4 in total.  Refuted:
`decode` already advances PC via `incrementProgramCounter` inside each
case, and then `execute()` unconditionally adds another 2, so one cycle
on a freshly initialized machine (which fetches opcode 0x0000, the
clear-screen case) moves PC from 0x200 to 0x204, and the sequence
0x6005 then 0x7003 leaves V0 = 8 but moves PC from 0x200 to 0x208. -/
theorem C2_pc_double_advance :
    (EmulateCycle 0 initMachine).okState.map Chip8.pc = some 0x204 ∧
    (((stepOp 0 0x6005 initMachine).okState.bind
        (fun t => (stepOp 0 0x7003 t).okState)).map
      (fun t => (t.V 0, t.pc))) = some (8, 0x208) ∧
    (0x204 : Nat) ≠ 0x202 ∧ (0x208 : Nat) ≠ 0x204 :=
  ⟨rfl, rfl, by decide, by decide⟩

/-- Unknown-opcode scenario for claim C3: a machine with a running
delay timer, about to execute the undefined word 0xFFFF. -/
def cs3 : Chip8 :=
  { initMachine with delayedTimer := 5 }

/-- Claim C3: every undefined opcode is claimed to yield a recoverable
`UnknownOpcode` failure value without terminating the process and with
the whole machine state unmodified.  Refuted: the word 0xFFFF falls
into `case 0xF000`, whose inner switch has no default, so it is
silently ignored: the step returns normally, the delay timer ticks from
5 to 4 and `execute` advances PC to 0x202.  Other undefined words such
as 0x0001 instead hit `log.Panicf`, modelled as a fault: no recoverable
`UnknownOpcode` value exists anywhere in the code. -/
theorem C3_unknown_opcode_not_reported :
    (stepOp 0 0xFFFF cs3).isFault = false ∧
    (stepOp 0 0xFFFF cs3).okState.map (fun t => (t.pc, t.delayedTimer))
      = some (0x202, 4) ∧
    (stepOp 0 0x0001 cs3).isFault = true ∧
    (0x202 : Nat) ≠ 0x200 :=
  ⟨rfl, rfl, rfl, by decide⟩

/-- ADD scenario for claim C4: V0 = 0xFF and V1 = 0x01. -/
def cs4 : Chip8 :=
  { initMachine with V := updF (updF (fun _ => 0) 0 0xFF) 1 0x01 }

/-- Claim C4: opcode 0x8xy4 is claimed to set Vx to (Vx + Vy) mod 256
with VF as the carry, so 0x8014 with V0=0xFF, V1=0x01 should give
V0=0x00, VF=1.  Refuted: the source adds `c.V[(vYPos) >> 4]` — the
already-extracted nibble shifted right by 4 again, i.e. always V0 — so
the code computes V0 := (0xFF + 0xFF) mod 256 = 0xFE (VF is 1 here
because the carry test itself does read V1). -/
theorem C4_add_wrong_addend :
    (stepOp 0 0x8014 cs4).okState.map (fun t => (t.V 0, t.V 0xF))
      = some (0xFE, 1) ∧
    (0xFE : Nat) ≠ 0x00 :=
  ⟨rfl, by decide⟩

/-- SUB scenario for claim C5: V0 = 5 and V1 = 3. -/
def cs5 : Chip8 :=
  { initMachine with V := updF (updF (fun _ => 0) 0 5) 1 3 }

/-- Claim C5: opcode 0x8xy5 is claimed to set VF = 1 exactly when
Vx >= Vy (NOT borrow).  Refuted: the source reuses the ADD carry test
`c.V[vXPos] > 0xFF - c.V[vYPos]`, i.e. VF = 1 iff Vx + Vy > 255; with
V0 = 5, V1 = 3 the claim requires VF = 1 (since 5 >= 3) but the code
leaves VF = 0 (the difference V0 = 2 itself is computed correctly). -/
theorem C5_sub_wrong_flag :
    (stepOp 0 0x8015 cs5).okState.map (fun t => (t.V 0, t.V 0xF))
      = some (2, 0) ∧
    (3 : Nat) ≤ 5 ∧ (0 : Nat) ≠ 1 :=
  ⟨rfl, by decide, by decide⟩

/-- Claim C6: CALL then RETURN is claimed to restore PC to the
instruction after the CALL for every 12-bit call-site address,
including addresses >= 0x200.  Refuted: `c.stack[c.sp] = byte(c.pc)`
stores only the low byte of the 16-bit PC into the byte-typed stack, so
a CALL fetched from 0x200 pushes 0x00; the subsequent RETURN restores
PC = 0x00 and (with the post-return advances) resumes at 0x0004 instead
of 0x0202.  The stack pointer does return to its pre-CALL value. -/
theorem C6_ret_loses_high_byte :
    (((stepOp 0 0x2A00 initMachine).okState.bind
        (fun t => (stepOp 0 0x00EE t).okState)).map
      (fun t => (t.pc, t.sp))) = some (0x0004, 0) ∧
    (0x0004 : Nat) ≠ 0x0202 :=
  ⟨rfl, by decide⟩

/-- Claim C7: 16 nested CALLs are claimed to succeed and the 17th to
fail with a recoverable `StackOverflow` error leaving state unchanged.
Partially refuted: 16 nested CALLs do succeed and bring the stack
pointer to 16, but the 17th executes `c.stack[c.sp]` with sp = 16, an
out-of-bounds write into the 16-byte stack array — a Go runtime panic
(crash), not a recoverable error value; the state at the panic point is
unmutated (sp still 16, PC still 0xA02). -/
theorem C7_seventeenth_call_out_of_bounds :
    (nestedCalls 16).map Chip8.sp = some 16 ∧
    ((nestedCalls 16).map (fun t => (stepOp 0 0x2A00 t).isFault)) = some true ∧
    (((nestedCalls 16).bind (fun t => (stepOp 0 0x2A00 t).faultState)).map
      (fun t => (t.sp, t.pc))) = some (16, 0xA02) :=
  ⟨rfl, rfl, rfl⟩

/-- Sound-timer scenario for claim C8: sound timer = 2, executing the
well-defined instruction 0x6000 (LD V0, 0). -/
def cs8 : Chip8 :=
  { initMachine with soundTimer := 2 }

/-- Claim C8: a nonzero sound timer is claimed to be decremented by one
on every step, so a timer of N > 0 reaches 0 after N steps.  Refuted:
the decrement sits inside the `c.soundTimer == 1` test, so a sound
timer of 2 is never decremented at all — it is still 2 after one step
and after two steps, and never reaches 0. -/
theorem C8_sound_timer_never_decrements :
    (stepOp 0 0x6000 cs8).okState.map Chip8.soundTimer = some 2 ∧
    ((stepOp 0 0x6000 cs8).okState.bind
        (fun t => (stepOp 0 0x6000 t).okState)).map Chip8.soundTimer = some 2 ∧
    (2 : Nat) ≠ 1 :=
  ⟨rfl, rfl, by decide⟩

/-- Draw scenario for claim C9: freshly initialized machine (so
memory[0] = 0xF0, the first fontset byte, I = 0, V0 = V1 = 0, display
clear) with the redraw flag lowered, executing 0xD011
(draw 1 sprite row at column V0, row V1). -/
def cs9 : Chip8 :=
  { initMachine with drawFlag := false }

/-- Claim C9: opcode 0xDxyn is claimed to XOR-blit n sprite rows from
memory[I] onto the display, set VF on collision and raise the redraw
flag.  Refuted: `case 0xD000:` in the source is an empty TODO stub, so
drawing sprite byte 0xF0 at (0,0) changes nothing: the top-left pixel
stays 0 (the claim requires it to become set), VF stays 0, the redraw
flag stays false, and only the default PC advance happens. -/
theorem C9_draw_unimplemented :
    cs9.memory 0 = 0xF0 ∧ cs9.ir = 0 ∧ cs9.V 0 = 0 ∧
    (stepOp 0 0xD011 cs9).okState.map
        (fun t => (t.gfx 0, t.V 0xF, t.drawFlag, t.pc))
      = some (0, 0, false, 0x202) :=
  ⟨rfl, rfl, rfl, rfl⟩

/-- Claim C10: for instructions in the families 0x3, 0x4, 0x5, 0x6,
0x7, 0x9, and 0x8 with a defined sub-opcode (0-7 or E), one cycle
(decode with its timer update, then the unconditional execute advance)
returns normally and leaves the memory, display buffer, stack contents,
stack pointer, index register and keypad state exactly as they were:
these cases touch only the V registers, the program counter and the
timers. -/
theorem C10_register_family_frame (rnd : Nat) (s : Chip8)
    (h : (s.opcode &&& 0xF000 = 0x3000 ∨ s.opcode &&& 0xF000 = 0x4000 ∨
          s.opcode &&& 0xF000 = 0x5000 ∨ s.opcode &&& 0xF000 = 0x6000 ∨
          s.opcode &&& 0xF000 = 0x7000 ∨ s.opcode &&& 0xF000 = 0x9000) ∨
         (s.opcode &&& 0xF000 = 0x8000 ∧
          (s.opcode &&& 0x000F = 0x0000 ∨ s.opcode &&& 0x000F = 0x0001 ∨
           s.opcode &&& 0x000F = 0x0002 ∨ s.opcode &&& 0x000F = 0x0003 ∨
           s.opcode &&& 0x000F = 0x0004 ∨ s.opcode &&& 0x000F = 0x0005 ∨
           s.opcode &&& 0x000F = 0x0006 ∨ s.opcode &&& 0x000F = 0x0007 ∨
           s.opcode &&& 0x000F = 0x000E))) :
    ∃ t, decode rnd s = StepResult.ok t ∧
      (execute t).memory = s.memory ∧ (execute t).gfx = s.gfx ∧
      (execute t).stack = s.stack ∧ (execute t).sp = s.sp ∧
      (execute t).ir = s.ir ∧ (execute t).key = s.key := by
  rcases h with (h | h | h | h | h | h) |
    ⟨h8, hl | hl | hl | hl | hl | hl | hl | hl | hl⟩ <;>
  exact ⟨_,
    by first
      | (unfold decode decodeOp decode8
         rw [h8, hl]
         rfl)
      | (unfold decode decodeOp
         rw [h]
         rfl),
    by first | rfl | (split <;> rfl), by first | rfl | (split <;> rfl),
    by first | rfl | (split <;> rfl), by first | rfl | (split <;> rfl),
    by first | rfl | (split <;> rfl), by first | rfl | (split <;> rfl)⟩

/-- Concrete input for the C10 witness: a freshly initialized machine
about to execute 0x8124 (ADD V1, V2). -/
def wC10 : Chip8 :=
  { initMachine with opcode := 0x8124 }

/-- Witness for claim C10 at the concrete opcode 0x8124. -/
theorem C10_register_family_frame_witness :
    ∃ t, decode 0 wC10 = StepResult.ok t ∧
      (execute t).memory = wC10.memory ∧ (execute t).gfx = wC10.gfx ∧
      (execute t).stack = wC10.stack ∧ (execute t).sp = wC10.sp ∧
      (execute t).ir = wC10.ir ∧ (execute t).key = wC10.key :=
  C10_register_family_frame 0 wC10 (by decide)
